import Mathlib

/-
  Verification of `cmd/hil-vpn-privop/openvpn-conf.go` from the hil-vpn
  repository: a shallow embedding of the OpenVPN config/key provisioning
  component, together with proofs of its specified properties.
-/

set_option maxRecDepth 100000

namespace HilVpn

/-- The fixed base directory for generated files (`configDir` in the source). -/
def configDir : String := "/etc/openvpn/server"

/-- The `OpenVpnCfg` struct from the source: logical name, raw key bytes
    (captured subprocess stdout, kept as a string exactly as in Go),
    listening port and VLAN id. -/
structure OpenVpnCfg where
  Name : String
  Key : String
  Port : Nat
  Vlan : Nat
deriving DecidableEq

/-- `getCfgPath` from the source: path of the config file for a named vpn. -/
def getCfgPath (name : String) : String :=
  configDir ++ "/" ++ name ++ ".conf"

/-- `getKeyPath` from the source: path of the key file for a named vpn. -/
def getKeyPath (name : String) : String :=
  configDir ++ "/hil-vpn-" ++ name ++ ".key"

/-- `getServiceName` from the source: the systemd unit for a named vpn. -/
def getServiceName (vpnName : String) : String :=
  "openvpn-server@" ++ vpnName

-- Helper lemmas about string append, proved via the underlying char lists.

theorem strAppend_assoc (a b c : String) : a ++ b ++ c = a ++ (b ++ c) := by
  apply String.ext
  simp [String.data_append, List.append_assoc]

theorem getCfgPath_eq (name : String) :
    getCfgPath name = "/etc/openvpn/server/" ++ name ++ ".conf" := by
  unfold getCfgPath configDir
  rw [show ("/etc/openvpn/server" ++ "/" : String) = "/etc/openvpn/server/" from rfl]

theorem getKeyPath_eq (name : String) :
    getKeyPath name = "/etc/openvpn/server/hil-vpn-" ++ name ++ ".key" := by
  unfold getKeyPath configDir
  rw [show ("/etc/openvpn/server" ++ "/hil-vpn-" : String) = "/etc/openvpn/server/hil-vpn-" from rfl]

/- ------------------------------------------------------------------
   Interface name allocation (`OpenVpnCfg.NewInterfaceName`):
   16 random bytes, encoded with Go's `base64.RawURLEncoding`
   (URL-safe alphabet, no padding), truncated to 12 characters.
   ------------------------------------------------------------------ -/

/-- The URL-safe base64 alphabet, indexed 0..63: A-Z, a-z, 0-9, then
    the two URL-safe symbols dash and underscore. -/
def b64urlChar (n : Nat) : Char :=
  if n < 26 then Char.ofNat (65 + n)
  else if n < 52 then Char.ofNat (97 + (n - 26))
  else if n < 62 then Char.ofNat (48 + (n - 52))
  else if n = 62 then Char.ofNat 45
  else Char.ofNat 95

/-- Whether a character belongs to the URL-safe base64 alphabet
    (A-Z, a-z, 0-9, dash, underscore). -/
def isB64urlChar (c : Char) : Bool :=
  (65 ≤ c.toNat && c.toNat ≤ 90) || (97 ≤ c.toNat && c.toNat ≤ 122) ||
  (48 ≤ c.toNat && c.toNat ≤ 57) || c.toNat == 45 || c.toNat == 95

/-- Go's `base64.RawURLEncoding.EncodeToString`: groups of 3 bytes become
    4 alphabet characters; a trailing group of 1 or 2 bytes becomes 2 or 3
    characters with no padding. -/
def b64urlEncode : List Nat → List Char
  | b1 :: b2 :: b3 :: rest =>
      b64urlChar (b1 / 4) ::
      b64urlChar (b1 % 4 * 16 + b2 / 16) ::
      b64urlChar (b2 % 16 * 4 + b3 / 64) ::
      b64urlChar (b3 % 64) ::
      b64urlEncode rest
  | [b1, b2] =>
      [b64urlChar (b1 / 4), b64urlChar (b1 % 4 * 16 + b2 / 16),
       b64urlChar (b2 % 16 * 4)]
  | [b1] =>
      [b64urlChar (b1 / 4), b64urlChar (b1 % 4 * 16)]
  | [] => []

/-- The successful body of `OpenVpnCfg.NewInterfaceName`: base64url-encode
    the 16 bytes delivered by `crypto/rand` and keep the first 12
    characters (`[:12]` on an ASCII string). -/
def newInterfaceName (data : List Nat) : String :=
  String.mk ((b64urlEncode data).take 12)

theorem isB64urlChar_b64urlChar : ∀ n < 64, isB64urlChar (b64urlChar n) = true := by
  decide

theorem b64urlEncode_take12 (b1 b2 b3 b4 b5 b6 b7 b8 b9 : Nat) (rest : List Nat) :
    (b64urlEncode (b1 :: b2 :: b3 :: b4 :: b5 :: b6 :: b7 :: b8 :: b9 :: rest)).take 12 =
      [b64urlChar (b1 / 4), b64urlChar (b1 % 4 * 16 + b2 / 16),
       b64urlChar (b2 % 16 * 4 + b3 / 64), b64urlChar (b3 % 64),
       b64urlChar (b4 / 4), b64urlChar (b4 % 4 * 16 + b5 / 16),
       b64urlChar (b5 % 16 * 4 + b6 / 64), b64urlChar (b6 % 64),
       b64urlChar (b7 / 4), b64urlChar (b7 % 4 * 16 + b8 / 16),
       b64urlChar (b8 % 16 * 4 + b9 / 64), b64urlChar (b9 % 64)] := by
  rw [b64urlEncode, b64urlEncode, b64urlEncode]
  simp [List.take]

theorem exists_cons_of_length_succ {α : Type} (l : List α) (n : Nat)
    (h : l.length = n + 1) : ∃ a t, l = a :: t ∧ t.length = n := by
  cases l with
  | nil => simp at h
  | cons a t => exact ⟨a, t, rfl, by simpa using h⟩

theorem newInterfaceName_spec (data : List Nat) (hlen : data.length = 16)
    (hb : ∀ b ∈ data, b < 256) :
    (newInterfaceName data).length = 12 ∧
    ∀ c ∈ (newInterfaceName data).data, isB64urlChar c = true := by
  obtain ⟨b1, t1, rfl, hl1⟩ := exists_cons_of_length_succ data 15 hlen
  obtain ⟨b2, t2, rfl, hl2⟩ := exists_cons_of_length_succ t1 14 hl1
  obtain ⟨b3, t3, rfl, hl3⟩ := exists_cons_of_length_succ t2 13 hl2
  obtain ⟨b4, t4, rfl, hl4⟩ := exists_cons_of_length_succ t3 12 hl3
  obtain ⟨b5, t5, rfl, hl5⟩ := exists_cons_of_length_succ t4 11 hl4
  obtain ⟨b6, t6, rfl, hl6⟩ := exists_cons_of_length_succ t5 10 hl5
  obtain ⟨b7, t7, rfl, hl7⟩ := exists_cons_of_length_succ t6 9 hl6
  obtain ⟨b8, t8, rfl, hl8⟩ := exists_cons_of_length_succ t7 8 hl7
  obtain ⟨b9, t9, rfl, hl9⟩ := exists_cons_of_length_succ t8 7 hl8
  have h1 : b1 < 256 := hb b1 (by simp)
  have h2 : b2 < 256 := hb b2 (by simp)
  have h3 : b3 < 256 := hb b3 (by simp)
  have h4 : b4 < 256 := hb b4 (by simp)
  have h5 : b5 < 256 := hb b5 (by simp)
  have h6 : b6 < 256 := hb b6 (by simp)
  have h7 : b7 < 256 := hb b7 (by simp)
  have h8 : b8 < 256 := hb b8 (by simp)
  have h9 : b9 < 256 := hb b9 (by simp)
  simp only [newInterfaceName, b64urlEncode_take12]
  refine ⟨rfl, ?_⟩
  intro c hc
  have hc : c ∈
      [b64urlChar (b1 / 4), b64urlChar (b1 % 4 * 16 + b2 / 16),
       b64urlChar (b2 % 16 * 4 + b3 / 64), b64urlChar (b3 % 64),
       b64urlChar (b4 / 4), b64urlChar (b4 % 4 * 16 + b5 / 16),
       b64urlChar (b5 % 16 * 4 + b6 / 64), b64urlChar (b6 % 64),
       b64urlChar (b7 / 4), b64urlChar (b7 % 4 * 16 + b8 / 16),
       b64urlChar (b8 % 16 * 4 + b9 / 64), b64urlChar (b9 % 64)] := hc
  simp only [List.mem_cons, List.not_mem_nil, or_false] at hc
  rcases hc with rfl | rfl | rfl | rfl | rfl | rfl | rfl | rfl | rfl | rfl | rfl | rfl
  all_goals exact isB64urlChar_b64urlChar _ (by omega)

/-- Result of an operation that either returns a value or fatally
    terminates the whole process (Go's `log.Fatal`-style `chkfatal`). -/
inductive FatalOr (α : Type) where
  | fatal : FatalOr α
  | ok : α → FatalOr α
deriving DecidableEq

/-- `OpenVpnCfg.NewInterfaceName` from the source: `crypto/rand.Read` either
    delivers 16 bytes (`some data`) or fails (`none`); on failure the code
    calls `chkfatal`. `chkfatal` is not among the provided sources; modelled
    from the spec: a random-source failure is "fatal, non-recoverable",
    "terminating the calling operation immediately" - an immediate fatal
    termination of the process, which therefore never returns to the caller. -/
def OpenVpnCfg.NewInterfaceName (_cfg : OpenVpnCfg) (randBytes : Option (List Nat)) :
    FatalOr String :=
  match randBytes with
  | none => FatalOr.fatal
  | some data => FatalOr.ok (newInterfaceName data)

/-- C6: every successful call to `OpenVpnCfg.NewInterfaceName` (the secure
    random source delivered its 16 bytes) returns exactly the first 12
    characters of the unpadded URL-safe base64 encoding of those 16 bytes:
    a string of exactly 12 characters, each drawn from the URL-safe base64
    alphabet (A-Z, a-z, 0-9, dash, underscore). -/
theorem c6_newInterfaceName_correct (cfg : OpenVpnCfg) (data : List Nat)
    (hlen : data.length = 16) (hb : ∀ b ∈ data, b < 256) :
    cfg.NewInterfaceName (some data) =
      FatalOr.ok (String.mk ((b64urlEncode data).take 12)) ∧
    (newInterfaceName data).length = 12 ∧
    ∀ c ∈ (newInterfaceName data).data, isB64urlChar c = true :=
  ⟨rfl, newInterfaceName_spec data hlen hb⟩

/-- Witness for C6 at a concrete input: sixteen zero bytes. -/
theorem c6_newInterfaceName_correct_witness :
    (OpenVpnCfg.mk "lab1" "" 1194 42).NewInterfaceName (some (List.replicate 16 0)) =
      FatalOr.ok (String.mk ((b64urlEncode (List.replicate 16 0)).take 12)) ∧
    (newInterfaceName (List.replicate 16 0)).length = 12 ∧
    ∀ c ∈ (newInterfaceName (List.replicate 16 0)).data, isB64urlChar c = true :=
  c6_newInterfaceName_correct (OpenVpnCfg.mk "lab1" "" 1194 42)
    (List.replicate 16 0) (by decide) (by decide)

/- ------------------------------------------------------------------
   The configuration document template (`openVpnCfgTpl`): the fixed text
   of the Go raw-string template, split at its five substitution points
   (interface name, vpn name, port, helper-script dir, vlan). -/

/-- Template text up to the interface-name substitution. -/
def tplPart1 : String :=
  "\n# This file is automatically generated by hil-vpn-privop; do not modify manually.\n\ndev tap"

/-- Template text between the interface name and the vpn name. -/
def tplPart2 : String := "\nsecret hil-vpn-"

/-- Template text between the vpn name and the port. -/
def tplPart3 : String :=
  ".key\n\n# The default cipher is insecure, so we explicitly set the cipher to the openvpn\n# project\x27s recommendation. See https://community.openvpn.net/openvpn/wiki/SWEET32\ncipher AES-256-CBC\n\nlport "

/-- Template text between the port and the helper-script directory. -/
def tplPart4 : String := "\n\nup \""

/-- Template text between the helper-script directory and the vlan. -/
def tplPart5 : String := "/hil-vpn-hook-up "

/-- Template text after the vlan. -/
def tplPart6 : String :=
  "\"\n# Needed to permit the above to actually run:\nscript-security 2\n\nuser nobody\ngroup nobody\n"

/-- `openVpnCfgTpl.Execute` on a `templateArg`: the document text produced
    for a config, a helper-script directory (`staticconfig.Libexecdir`,
    threaded as a parameter) and the freshly allocated interface name. -/
def renderCfg (cfg : OpenVpnCfg) (libexecdir : String) (iface : String) : String :=
  tplPart1 ++ iface ++ tplPart2 ++ cfg.Name ++ tplPart3 ++ toString cfg.Port ++
    tplPart4 ++ libexecdir ++ tplPart5 ++ toString cfg.Vlan ++ tplPart6

/-- `doc` contains `line` as a full newline-delimited line (the document
    both starts and ends with a newline, so every line of the rendered
    document is delimited by a newline on each side). -/
def containsLine (doc line : String) : Prop :=
  ∃ pre post, doc = pre ++ "\n" ++ line ++ "\n" ++ post

/-- The document rendered for the spec's fixed example inputs:
    name "lab1", vlan 42, port 1194, helper dir "/usr/libexec/hil-vpn". -/
def lab1Doc (key iface : String) : String :=
  renderCfg (OpenVpnCfg.mk "lab1" key 1194 42) "/usr/libexec/hil-vpn" iface

/-- Everything of `lab1Doc` after the interface name. -/
def lab1Tail : String :=
  tplPart2 ++ "lab1" ++ tplPart3 ++ toString (1194 : Nat) ++ tplPart4 ++
    "/usr/libexec/hil-vpn" ++ tplPart5 ++ toString (42 : Nat) ++ tplPart6

theorem lab1Doc_shape (key iface : String) :
    lab1Doc key iface = tplPart1 ++ iface ++ lab1Tail := by
  simp only [lab1Doc, renderCfg, lab1Tail, strAppend_assoc]

theorem containsLine_in_tail (doc A x B1 line B2 : String)
    (hdoc : doc = A ++ x ++ (B1 ++ "\n" ++ line ++ "\n" ++ B2)) :
    containsLine doc line :=
  ⟨A ++ x ++ B1, B2, by rw [hdoc]; simp only [strAppend_assoc]⟩

theorem containsLine_dev (doc P A3 x B2 : String)
    (hdoc : doc = (P ++ "\n" ++ A3) ++ x ++ ("\n" ++ B2)) :
    containsLine doc (A3 ++ x) :=
  ⟨P, B2, by rw [hdoc]; simp only [strAppend_assoc]⟩

/-- C7: for the fixed inputs Name="lab1", Vlan=42, Port=1194 and helper
    directory "/usr/libexec/hil-vpn", the rendered document contains the
    lines `lport 1194`, `up "/usr/libexec/hil-vpn/hil-vpn-hook-up 42"`,
    `secret hil-vpn-lab1.key`, the fixed cipher override line
    `cipher AES-256-CBC`, `script-security 2`, and a device line
    `dev tap` followed by exactly 12 URL-safe base64 characters. -/
theorem c7_rendered_document_contains_lines (key : String) (data : List Nat)
    (hlen : data.length = 16) (hb : ∀ b ∈ data, b < 256) :
    containsLine (lab1Doc key (newInterfaceName data)) "lport 1194" ∧
    containsLine (lab1Doc key (newInterfaceName data))
      "up \"/usr/libexec/hil-vpn/hil-vpn-hook-up 42\"" ∧
    containsLine (lab1Doc key (newInterfaceName data)) "secret hil-vpn-lab1.key" ∧
    containsLine (lab1Doc key (newInterfaceName data)) "cipher AES-256-CBC" ∧
    containsLine (lab1Doc key (newInterfaceName data)) "script-security 2" ∧
    containsLine (lab1Doc key (newInterfaceName data)) ("dev tap" ++ newInterfaceName data) ∧
    (newInterfaceName data).length = 12 ∧
    ∀ c ∈ (newInterfaceName data).data, isB64urlChar c = true := by
  refine ⟨?_, ?_, ?_, ?_, ?_, ?_, newInterfaceName_spec data hlen hb⟩
  · refine containsLine_in_tail _ tplPart1 (newInterfaceName data)
      "\nsecret hil-vpn-lab1.key\n\n# The default cipher is insecure, so we explicitly set the cipher to the openvpn\n# project\x27s recommendation. See https://community.openvpn.net/openvpn/wiki/SWEET32\ncipher AES-256-CBC\n"
      "lport 1194"
      "\nup \"/usr/libexec/hil-vpn/hil-vpn-hook-up 42\"\n# Needed to permit the above to actually run:\nscript-security 2\n\nuser nobody\ngroup nobody\n" ?_
    rw [lab1Doc_shape,
      (by decide : lab1Tail = "\nsecret hil-vpn-lab1.key\n\n# The default cipher is insecure, so we explicitly set the cipher to the openvpn\n# project\x27s recommendation. See https://community.openvpn.net/openvpn/wiki/SWEET32\ncipher AES-256-CBC\n" ++ "\n" ++ "lport 1194" ++ "\n" ++ "\nup \"/usr/libexec/hil-vpn/hil-vpn-hook-up 42\"\n# Needed to permit the above to actually run:\nscript-security 2\n\nuser nobody\ngroup nobody\n")]
  · refine containsLine_in_tail _ tplPart1 (newInterfaceName data)
      "\nsecret hil-vpn-lab1.key\n\n# The default cipher is insecure, so we explicitly set the cipher to the openvpn\n# project\x27s recommendation. See https://community.openvpn.net/openvpn/wiki/SWEET32\ncipher AES-256-CBC\n\nlport 1194\n"
      "up \"/usr/libexec/hil-vpn/hil-vpn-hook-up 42\""
      "# Needed to permit the above to actually run:\nscript-security 2\n\nuser nobody\ngroup nobody\n" ?_
    rw [lab1Doc_shape,
      (by decide : lab1Tail = "\nsecret hil-vpn-lab1.key\n\n# The default cipher is insecure, so we explicitly set the cipher to the openvpn\n# project\x27s recommendation. See https://community.openvpn.net/openvpn/wiki/SWEET32\ncipher AES-256-CBC\n\nlport 1194\n" ++ "\n" ++ "up \"/usr/libexec/hil-vpn/hil-vpn-hook-up 42\"" ++ "\n" ++ "# Needed to permit the above to actually run:\nscript-security 2\n\nuser nobody\ngroup nobody\n")]
  · refine containsLine_in_tail _ tplPart1 (newInterfaceName data)
      ""
      "secret hil-vpn-lab1.key"
      "\n# The default cipher is insecure, so we explicitly set the cipher to the openvpn\n# project\x27s recommendation. See https://community.openvpn.net/openvpn/wiki/SWEET32\ncipher AES-256-CBC\n\nlport 1194\n\nup \"/usr/libexec/hil-vpn/hil-vpn-hook-up 42\"\n# Needed to permit the above to actually run:\nscript-security 2\n\nuser nobody\ngroup nobody\n" ?_
    rw [lab1Doc_shape,
      (by decide : lab1Tail = "" ++ "\n" ++ "secret hil-vpn-lab1.key" ++ "\n" ++ "\n# The default cipher is insecure, so we explicitly set the cipher to the openvpn\n# project\x27s recommendation. See https://community.openvpn.net/openvpn/wiki/SWEET32\ncipher AES-256-CBC\n\nlport 1194\n\nup \"/usr/libexec/hil-vpn/hil-vpn-hook-up 42\"\n# Needed to permit the above to actually run:\nscript-security 2\n\nuser nobody\ngroup nobody\n")]
  · refine containsLine_in_tail _ tplPart1 (newInterfaceName data)
      "\nsecret hil-vpn-lab1.key\n\n# The default cipher is insecure, so we explicitly set the cipher to the openvpn\n# project\x27s recommendation. See https://community.openvpn.net/openvpn/wiki/SWEET32"
      "cipher AES-256-CBC"
      "\nlport 1194\n\nup \"/usr/libexec/hil-vpn/hil-vpn-hook-up 42\"\n# Needed to permit the above to actually run:\nscript-security 2\n\nuser nobody\ngroup nobody\n" ?_
    rw [lab1Doc_shape,
      (by decide : lab1Tail = "\nsecret hil-vpn-lab1.key\n\n# The default cipher is insecure, so we explicitly set the cipher to the openvpn\n# project\x27s recommendation. See https://community.openvpn.net/openvpn/wiki/SWEET32" ++ "\n" ++ "cipher AES-256-CBC" ++ "\n" ++ "\nlport 1194\n\nup \"/usr/libexec/hil-vpn/hil-vpn-hook-up 42\"\n# Needed to permit the above to actually run:\nscript-security 2\n\nuser nobody\ngroup nobody\n")]
  · refine containsLine_in_tail _ tplPart1 (newInterfaceName data)
      "\nsecret hil-vpn-lab1.key\n\n# The default cipher is insecure, so we explicitly set the cipher to the openvpn\n# project\x27s recommendation. See https://community.openvpn.net/openvpn/wiki/SWEET32\ncipher AES-256-CBC\n\nlport 1194\n\nup \"/usr/libexec/hil-vpn/hil-vpn-hook-up 42\"\n# Needed to permit the above to actually run:"
      "script-security 2"
      "\nuser nobody\ngroup nobody\n" ?_
    rw [lab1Doc_shape,
      (by decide : lab1Tail = "\nsecret hil-vpn-lab1.key\n\n# The default cipher is insecure, so we explicitly set the cipher to the openvpn\n# project\x27s recommendation. See https://community.openvpn.net/openvpn/wiki/SWEET32\ncipher AES-256-CBC\n\nlport 1194\n\nup \"/usr/libexec/hil-vpn/hil-vpn-hook-up 42\"\n# Needed to permit the above to actually run:" ++ "\n" ++ "script-security 2" ++ "\n" ++ "\nuser nobody\ngroup nobody\n")]
  · refine containsLine_dev _
      "\n# This file is automatically generated by hil-vpn-privop; do not modify manually.\n"
      "dev tap" (newInterfaceName data)
      "secret hil-vpn-lab1.key\n\n# The default cipher is insecure, so we explicitly set the cipher to the openvpn\n# project\x27s recommendation. See https://community.openvpn.net/openvpn/wiki/SWEET32\ncipher AES-256-CBC\n\nlport 1194\n\nup \"/usr/libexec/hil-vpn/hil-vpn-hook-up 42\"\n# Needed to permit the above to actually run:\nscript-security 2\n\nuser nobody\ngroup nobody\n" ?_
    rw [lab1Doc_shape,
      (by decide : tplPart1 = "\n# This file is automatically generated by hil-vpn-privop; do not modify manually.\n" ++ "\n" ++ "dev tap"),
      (by decide : lab1Tail = "\n" ++ "secret hil-vpn-lab1.key\n\n# The default cipher is insecure, so we explicitly set the cipher to the openvpn\n# project\x27s recommendation. See https://community.openvpn.net/openvpn/wiki/SWEET32\ncipher AES-256-CBC\n\nlport 1194\n\nup \"/usr/libexec/hil-vpn/hil-vpn-hook-up 42\"\n# Needed to permit the above to actually run:\nscript-security 2\n\nuser nobody\ngroup nobody\n")]

/-- Witness for C7 at a concrete input: sixteen zero bytes and an empty key. -/
theorem c7_rendered_document_contains_lines_witness :
    containsLine (lab1Doc "" (newInterfaceName (List.replicate 16 0))) "lport 1194" :=
  (c7_rendered_document_contains_lines "" (List.replicate 16 0) (by decide) (by decide)).1

/- ------------------------------------------------------------------
   Path distinctness: helper lemmas shared by the Save proofs and by the
   aliasing-freedom claim. -/

theorem cfgPath_injective_data (n1 n2 : String)
    (h : getCfgPath n1 = getCfgPath n2) : n1 = n2 := by
  have hd : (getCfgPath n1).data = (getCfgPath n2).data := by rw [h]
  unfold getCfgPath at hd
  simp only [String.data_append] at hd
  have h1 := List.append_cancel_right hd
  have h2 := List.append_cancel_left h1
  exact String.ext h2

theorem keyPath_injective_data (n1 n2 : String)
    (h : getKeyPath n1 = getKeyPath n2) : n1 = n2 := by
  have hd : (getKeyPath n1).data = (getKeyPath n2).data := by rw [h]
  unfold getKeyPath at hd
  simp only [String.data_append] at hd
  have h1 := List.append_cancel_right hd
  have h2 := List.append_cancel_left h1
  exact String.ext h2

theorem cfgPath_ne_keyPath (n1 n2 : String) : getCfgPath n1 ≠ getKeyPath n2 := by
  intro h
  have hd : (getCfgPath n1).data = (getKeyPath n2).data := by rw [h]
  unfold getCfgPath getKeyPath at hd
  simp only [String.data_append] at hd
  have hlast := congrArg List.getLast? hd
  rw [List.getLast?_append_of_ne_nil _ (by decide),
      List.getLast?_append_of_ne_nil _ (by decide)] at hlast
  exact absurd hlast (by decide)

/- ------------------------------------------------------------------
   Filesystem model and `OpenVpnCfg.Save`.

   The filesystem is a map from absolute paths to files (permission mode
   and content).  `os.OpenFile` with `O_CREATE|O_EXCL|O_RDWR` and mode
   0600 creates an empty file with mode 0600, failing if the path already
   exists; `os.Remove` deletes a path. -/

/-- A file on disk: its permission mode and its content. -/
structure FsFile where
  mode : Nat
  content : String
deriving DecidableEq

/-- Filesystem state: a map from paths to files. -/
def FS : Type := String → Option FsFile

/-- The empty filesystem. -/
def fsEmpty : FS := fun _ => none

/-- Create or overwrite the file at `p`. -/
def fsSet (fs : FS) (p : String) (f : FsFile) : FS :=
  fun q => if q = p then some f else fs q

/-- `os.Remove p`. -/
def fsRemove (fs : FS) (p : String) : FS :=
  fun q => if q = p then none else fs q

/-- The environment a call to `Save` executes in: which of its fallible
    steps fail, the bytes the secure random source supplies (none when
    `crypto/rand.Read` fails), and the static helper-script directory
    (`staticconfig.Libexecdir`, a build-time constant). -/
structure SaveEnv where
  cfgOpenFails : Bool
  keyOpenFails : Bool
  rand : Option (List Nat)
  renderFails : Bool
  keyWriteFails : Bool
  libexecdir : String

/-- The error returned by a failing `Save`: `pathExists` is the `EEXIST`
    failure of an `O_EXCL` open, `openFailed` any other open failure, and
    `writeFailed` an I/O failure during template rendering or key write. -/
inductive SaveErr where
  | pathExists : SaveErr
  | openFailed : SaveErr
  | writeFailed : SaveErr
deriving DecidableEq

/-- How a call to `Save` ends: a returned `nil`, a returned error, or a
    fatal process termination (`chkfatal`) from which `Save` never
    returns to its caller. -/
inductive SaveOutcome where
  | ok : SaveOutcome
  | err : SaveErr → SaveOutcome
  | fatal : SaveOutcome
deriving DecidableEq

/-- `OpenVpnCfg.Save` from the source, step for step:
    1. open the config file with `O_CREATE|O_EXCL|O_RDWR`, mode 0600
       (error if the path exists; nothing is created then);
    2. defer: close, and remove the config file if `err != nil`;
    3. open the key file the same way (on error the config-file defer
       removes the just-created config file);
    4. defer: close, and remove the key file if `err != nil`;
    5. `openVpnCfgTpl.Execute`: the template writes its leading literal
       text, then calls `NewInterfaceName`; if `crypto/rand` fails there,
       `chkfatal` terminates the process at once - the deferred removals
       never run, so both just-created files stay behind (the config file
       holding the literal text written so far); if `Execute` instead
       returns a write error, both defers remove both files;
    6. write `cfg.Key` into the key file; on error both defers remove
       both files; on success both files remain. -/
def OpenVpnCfg.Save (cfg : OpenVpnCfg) (env : SaveEnv) (fs : FS) : SaveOutcome × FS :=
  let cfgPath := getCfgPath cfg.Name
  let keyPath := getKeyPath cfg.Name
  if (fs cfgPath).isSome then (SaveOutcome.err SaveErr.pathExists, fs)
  else if env.cfgOpenFails then (SaveOutcome.err SaveErr.openFailed, fs)
  else
    let fs1 := fsSet fs cfgPath ⟨0o600, ""⟩
    if (fs1 keyPath).isSome then
      (SaveOutcome.err SaveErr.pathExists, fsRemove fs1 cfgPath)
    else if env.keyOpenFails then
      (SaveOutcome.err SaveErr.openFailed, fsRemove fs1 cfgPath)
    else
      let fs2 := fsSet fs1 keyPath ⟨0o600, ""⟩
      match env.rand with
      | none => (SaveOutcome.fatal, fsSet fs2 cfgPath ⟨0o600, tplPart1⟩)
      | some data =>
        if env.renderFails then
          (SaveOutcome.err SaveErr.writeFailed, fsRemove (fsRemove fs2 keyPath) cfgPath)
        else
          let fs3 := fsSet fs2 cfgPath
            ⟨0o600, renderCfg cfg env.libexecdir (newInterfaceName data)⟩
          if env.keyWriteFails then
            (SaveOutcome.err SaveErr.writeFailed, fsRemove (fsRemove fs3 keyPath) cfgPath)
          else
            (SaveOutcome.ok, fsSet fs3 keyPath ⟨0o600, cfg.Key⟩)

theorem fsRemove_fsSet (fs : FS) (p : String) (f : FsFile) (hp : fs p = none) :
    fsRemove (fsSet fs p f) p = fs := by
  funext q
  unfold fsRemove fsSet
  by_cases h : q = p
  · subst h; simp [hp]
  · simp [h]

theorem fsRemove_two (fs fsx : FS) (c k : String)
    (hc : fs c = none) (hk : fs k = none)
    (hother : ∀ q, q ≠ c → q ≠ k → fsx q = fs q) :
    fsRemove (fsRemove fsx k) c = fs := by
  funext q
  unfold fsRemove
  by_cases h1 : q = c
  · subst h1; simp [hc]
  · by_cases h2 : q = k
    · subst h2; simp [h1, hk]
    · simp [h1, h2, hother q h1 h2]

/-- The key-file `O_EXCL` open finding no file means the key path differs
    from the just-created config path and held no file beforehand. -/
theorem keyOpen_clear (fs : FS) (c k : String) (f : FsFile)
    (h : ¬ ((fsSet fs c f) k).isSome = true) :
    k ≠ c ∧ fs k = none := by
  unfold fsSet at h
  by_cases hq : k = c
  · simp [hq] at h
  · refine ⟨hq, ?_⟩
    simp only [hq, if_false] at h
    exact Option.not_isSome_iff_eq_none.mp h

/-- C1: every call to `OpenVpnCfg.Save` that returns an error leaves the
    filesystem exactly as it was before the call began: files that did not
    exist still do not exist, and files that existed are unchanged. -/
theorem c1_save_error_leaves_fs_unchanged (cfg : OpenVpnCfg) (env : SaveEnv) (fs : FS)
    (e : SaveErr) (h : (cfg.Save env fs).1 = SaveOutcome.err e) :
    (cfg.Save env fs).2 = fs := by
  by_cases h1 : (fs (getCfgPath cfg.Name)).isSome
  · simp [OpenVpnCfg.Save, h1]
  · have hcnone : fs (getCfgPath cfg.Name) = none := Option.not_isSome_iff_eq_none.mp h1
    by_cases h2 : env.cfgOpenFails
    · simp [OpenVpnCfg.Save, h1, h2]
    · by_cases h3 : ((fsSet fs (getCfgPath cfg.Name) ⟨0o600, ""⟩) (getKeyPath cfg.Name)).isSome
      · simp [OpenVpnCfg.Save, h1, h2, h3]
        exact fsRemove_fsSet fs _ _ hcnone
      · obtain ⟨hkc, hknone⟩ := keyOpen_clear fs _ _ _ h3
        by_cases h4 : env.keyOpenFails
        · simp [OpenVpnCfg.Save, h1, h2, h3, h4]
          exact fsRemove_fsSet fs _ _ hcnone
        · cases hr : env.rand with
          | none => simp [OpenVpnCfg.Save, h1, h2, h3, h4, hr] at h
          | some d =>
            by_cases h5 : env.renderFails
            · simp [OpenVpnCfg.Save, h1, h2, h3, h4, hr, h5]
              refine fsRemove_two fs _ _ _ hcnone hknone ?_
              intro q hq1 hq2
              simp [fsSet, hq1, hq2]
            · by_cases h6 : env.keyWriteFails
              · simp [OpenVpnCfg.Save, h1, h2, h3, h4, hr, h5, h6]
                refine fsRemove_two fs _ _ _ hcnone hknone ?_
                intro q hq1 hq2
                simp [fsSet, hq1, hq2]
              · simp [OpenVpnCfg.Save, h1, h2, h3, h4, hr, h5, h6] at h

/-- A filesystem already holding a config file for "lab1". -/
def fsWithCfg : FS :=
  fun q => if q = getCfgPath "lab1" then some ⟨0o600, "old"⟩ else none

/-- A `Save` environment in which every step succeeds and the random
    source supplies sixteen zero bytes. -/
def envOk : SaveEnv :=
  SaveEnv.mk false false (some (List.replicate 16 0)) false false "/usr/libexec/hil-vpn"

/-- Witness for C1: a concrete colliding call returns an error and leaves
    the filesystem unchanged. -/
theorem c1_save_error_leaves_fs_unchanged_witness :
    ((OpenVpnCfg.mk "lab1" "KEY" 1194 42).Save envOk fsWithCfg).2 = fsWithCfg :=
  c1_save_error_leaves_fs_unchanged (OpenVpnCfg.mk "lab1" "KEY" 1194 42) envOk fsWithCfg
    SaveErr.pathExists (by decide)

/-- A `Save` environment in which `crypto/rand.Read` fails and every
    other step would succeed. -/
def envRandFails : SaveEnv :=
  SaveEnv.mk false false none false false "/usr/libexec/hil-vpn"

/-- Counterexample to C2 as stated: starting from an empty filesystem,
    when the random source fails during rendering the call does not
    return an error result to the caller (the outcome is a fatal process
    termination) and the filesystem is NOT left unchanged: both
    just-created files are still present afterwards, not removed. -/
theorem c2_counterexample :
    ((OpenVpnCfg.mk "lab1" "KEY" 1194 42).Save envRandFails fsEmpty).1 = SaveOutcome.fatal ∧
    ((OpenVpnCfg.mk "lab1" "KEY" 1194 42).Save envRandFails fsEmpty).2 (getCfgPath "lab1") ≠
      fsEmpty (getCfgPath "lab1") ∧
    ((OpenVpnCfg.mk "lab1" "KEY" 1194 42).Save envRandFails fsEmpty).2 (getKeyPath "lab1") ≠
      fsEmpty (getKeyPath "lab1") := by
  decide

/-- C2 (amended): if the secure random source cannot supply bytes during
    interface-name allocation (which happens while `Save` renders the
    document, after both files have been created), the operation does not
    report the failure to the caller as a returned error: the process is
    terminated immediately (`chkfatal` is fatal), the deferred cleanups
    never run, and both just-created files are left behind - the config
    file holding the template text written before the failure, the key
    file still empty. -/
theorem c2_amended_rand_failure_fatal (cfg : OpenVpnCfg) (env : SaveEnv) (fs : FS)
    (hrand : env.rand = none)
    (hcfg : fs (getCfgPath cfg.Name) = none)
    (hkey : fs (getKeyPath cfg.Name) = none)
    (h1 : env.cfgOpenFails = false) (h2 : env.keyOpenFails = false) :
    (cfg.Save env fs).1 = SaveOutcome.fatal ∧
    (cfg.Save env fs).2 (getCfgPath cfg.Name) = some ⟨0o600, tplPart1⟩ ∧
    (cfg.Save env fs).2 (getKeyPath cfg.Name) = some ⟨0o600, ""⟩ := by
  have hkc : getKeyPath cfg.Name ≠ getCfgPath cfg.Name :=
    Ne.symm (cfgPath_ne_keyPath cfg.Name cfg.Name)
  have hck : getCfgPath cfg.Name ≠ getKeyPath cfg.Name :=
    cfgPath_ne_keyPath cfg.Name cfg.Name
  simp [OpenVpnCfg.Save, hcfg, hkey, h1, h2, hrand, fsSet, hkc, hck]

/-- Witness for the amended C2 at a concrete input. -/
theorem c2_amended_rand_failure_fatal_witness :
    ((OpenVpnCfg.mk "lab1" "KEY" 1194 42).Save envRandFails fsEmpty).1 = SaveOutcome.fatal :=
  (c2_amended_rand_failure_fatal (OpenVpnCfg.mk "lab1" "KEY" 1194 42) envRandFails fsEmpty
    rfl rfl rfl rfl rfl).1

/-- C3: every call to `OpenVpnCfg.Save` that returns nil leaves both files
    on disk, each created with mode 0600: the config file holds the
    rendered document and the key file holds, byte for byte, the `Key`
    field of the config. -/
theorem c3_save_ok_creates_both_files (cfg : OpenVpnCfg) (env : SaveEnv) (fs : FS)
    (h : (cfg.Save env fs).1 = SaveOutcome.ok) :
    (∃ data, env.rand = some data ∧
      (cfg.Save env fs).2 (getCfgPath cfg.Name) =
        some ⟨0o600, renderCfg cfg env.libexecdir (newInterfaceName data)⟩) ∧
    (cfg.Save env fs).2 (getKeyPath cfg.Name) = some ⟨0o600, cfg.Key⟩ := by
  have hck : getCfgPath cfg.Name ≠ getKeyPath cfg.Name :=
    cfgPath_ne_keyPath cfg.Name cfg.Name
  by_cases h1 : (fs (getCfgPath cfg.Name)).isSome
  · simp [OpenVpnCfg.Save, h1] at h
  · by_cases h2 : env.cfgOpenFails
    · simp [OpenVpnCfg.Save, h1, h2] at h
    · by_cases h3 : ((fsSet fs (getCfgPath cfg.Name) ⟨0o600, ""⟩) (getKeyPath cfg.Name)).isSome
      · simp [OpenVpnCfg.Save, h1, h2, h3] at h
      · obtain ⟨hkc, hknone⟩ := keyOpen_clear fs _ _ _ h3
        by_cases h4 : env.keyOpenFails
        · simp [OpenVpnCfg.Save, h1, h2, h3, h4] at h
        · cases hr : env.rand with
          | none => simp [OpenVpnCfg.Save, h1, h2, h3, h4, hr] at h
          | some d =>
            by_cases h5 : env.renderFails
            · simp [OpenVpnCfg.Save, h1, h2, h3, h4, hr, h5] at h
            · by_cases h6 : env.keyWriteFails
              · simp [OpenVpnCfg.Save, h1, h2, h3, h4, hr, h5, h6] at h
              · refine ⟨⟨d, rfl, ?_⟩, ?_⟩ <;>
                  simp [OpenVpnCfg.Save, h1, h2, h3, h4, hr, h5, h6, fsSet, hkc, hck, hknone]

/-- Witness for C3: a concrete successful call on the empty filesystem. -/
theorem c3_save_ok_creates_both_files_witness :
    ((OpenVpnCfg.mk "lab1" "KEY" 1194 42).Save envOk fsEmpty).2 (getKeyPath "lab1") =
      some ⟨0o600, "KEY"⟩ :=
  (c3_save_ok_creates_both_files (OpenVpnCfg.mk "lab1" "KEY" 1194 42) envOk fsEmpty
    (by decide)).2

/-- C4: when the config file already exists for the name, `Save` fails
    with the `EEXIST` collision error of the exclusive create, and the
    filesystem - the pre-existing config file included - is untouched;
    in particular no key file is created. -/
theorem c4_save_cfg_collision (cfg : OpenVpnCfg) (env : SaveEnv) (fs : FS)
    (h : (fs (getCfgPath cfg.Name)).isSome = true) :
    (cfg.Save env fs).1 = SaveOutcome.err SaveErr.pathExists ∧
    (cfg.Save env fs).2 = fs := by
  simp [OpenVpnCfg.Save, h]

/-- Witness for C4 at a concrete input. -/
theorem c4_save_cfg_collision_witness :
    ((OpenVpnCfg.mk "lab1" "KEY" 1194 42).Save envOk fsWithCfg).1 =
      SaveOutcome.err SaveErr.pathExists :=
  (c4_save_cfg_collision (OpenVpnCfg.mk "lab1" "KEY" 1194 42) envOk fsWithCfg (by decide)).1

/-- C5: when the key file already exists but the config file does not
    (and the config-file creation itself succeeds), `Save` fails, the
    just-created config file is removed again, and the pre-existing key
    file is untouched: the filesystem ends exactly as it began. -/
theorem c5_save_key_collision (cfg : OpenVpnCfg) (env : SaveEnv) (fs : FS)
    (hcfg : fs (getCfgPath cfg.Name) = none)
    (hkey : (fs (getKeyPath cfg.Name)).isSome = true)
    (hopen : env.cfgOpenFails = false) :
    (cfg.Save env fs).1 = SaveOutcome.err SaveErr.pathExists ∧
    (cfg.Save env fs).2 = fs := by
  have hkc : getKeyPath cfg.Name ≠ getCfgPath cfg.Name :=
    Ne.symm (cfgPath_ne_keyPath cfg.Name cfg.Name)
  have h3 : ((fsSet fs (getCfgPath cfg.Name) ⟨0o600, ""⟩) (getKeyPath cfg.Name)).isSome := by
    simp [fsSet, hkc, hkey]
  constructor
  · simp [OpenVpnCfg.Save, hcfg, hopen, h3]
  · simp [OpenVpnCfg.Save, hcfg, hopen, h3]
    exact fsRemove_fsSet fs _ _ hcfg

/-- A filesystem already holding a key file for "lab1" and nothing else. -/
def fsWithKey : FS :=
  fun q => if q = getKeyPath "lab1" then some ⟨0o600, "oldkey"⟩ else none

/-- Witness for C5 at a concrete input. -/
theorem c5_save_key_collision_witness :
    ((OpenVpnCfg.mk "lab1" "KEY" 1194 42).Save envOk fsWithKey).2 = fsWithKey :=
  (c5_save_key_collision (OpenVpnCfg.mk "lab1" "KEY" 1194 42) envOk fsWithKey
    (by decide) (by decide) rfl).2

/- ------------------------------------------------------------------
   `NewOpenVpnConfig`: generate a config with a fresh static key. -/

/-- `NewOpenVpnConfig` from the source: run the subprocess
    `openvpn --genkey --secret /dev/fd/1` and capture its whole standard
    output. `keygen` is the subprocess result: `.ok output` when it runs
    and exits normally (carrying its entire stdout byte stream), `.error e`
    when it cannot run or exits abnormally. The Go body performs no
    filesystem operation, so the filesystem state is passed through
    unchanged; on failure the error is wrapped with
    "Error invoking openvpn: " and no config is returned. -/
def NewOpenVpnConfig (name : String) (vlan port : Nat)
    (keygen : Except String String) (fs : FS) : Except String OpenVpnCfg × FS :=
  match keygen with
  | Except.error e => (Except.error ("Error invoking openvpn: " ++ e), fs)
  | Except.ok output => (Except.ok (OpenVpnCfg.mk name output port vlan), fs)

/-- C8: `NewOpenVpnConfig` returns an error - the subprocess failure
    wrapped in "Error invoking openvpn: " - and no config exactly when the
    key-generation subprocess cannot run or exits abnormally; on success
    the returned config carries the name, vlan and port arguments
    unchanged and the subprocess's entire standard output, byte for byte,
    as its `Key`; the filesystem is untouched in either case. -/
theorem c8_newOpenVpnConfig_spec (name : String) (vlan port : Nat)
    (keygen : Except String String) (fs : FS) :
    (NewOpenVpnConfig name vlan port keygen fs).2 = fs ∧
    (∀ e, keygen = Except.error e →
      (NewOpenVpnConfig name vlan port keygen fs).1 =
        Except.error ("Error invoking openvpn: " ++ e)) ∧
    (∀ output, keygen = Except.ok output →
      (NewOpenVpnConfig name vlan port keygen fs).1 =
        Except.ok (OpenVpnCfg.mk name output port vlan)) := by
  refine ⟨?_, ?_, ?_⟩
  · cases keygen <;> rfl
  · intro e he
    subst he
    rfl
  · intro output ho
    subst ho
    rfl

/-- Witness for C8 at a concrete input: a successful key generation. -/
theorem c8_newOpenVpnConfig_spec_witness :
    (NewOpenVpnConfig "lab1" 42 1194 (Except.ok "KEYBYTES") fsEmpty).1 =
      Except.ok (OpenVpnCfg.mk "lab1" "KEYBYTES" 1194 42) :=
  (c8_newOpenVpnConfig_spec "lab1" 42 1194 (Except.ok "KEYBYTES") fsEmpty).2.2
    "KEYBYTES" rfl

/-- C9: for every name, the derived config path, key path and systemd
    unit name are exactly the base-plus-name forms the interface contract
    states. -/
theorem c9_derived_paths_and_unit (name : String) :
    getCfgPath name = "/etc/openvpn/server/" ++ name ++ ".conf" ∧
    getKeyPath name = "/etc/openvpn/server/hil-vpn-" ++ name ++ ".key" ∧
    getServiceName name = "openvpn-server@" ++ name :=
  ⟨getCfgPath_eq name, getKeyPath_eq name, rfl⟩

/-- C10: the path derivations never alias: `getCfgPath` and `getKeyPath`
    are each injective, and no config path ever equals any key path (for
    equal or different names), so the per-name exclusive-create collision
    check in `Save` is meaningful. -/
theorem c10_paths_never_alias (n1 n2 : String) :
    (getCfgPath n1 = getCfgPath n2 → n1 = n2) ∧
    (getKeyPath n1 = getKeyPath n2 → n1 = n2) ∧
    getCfgPath n1 ≠ getKeyPath n2 :=
  ⟨cfgPath_injective_data n1 n2, keyPath_injective_data n1 n2, cfgPath_ne_keyPath n1 n2⟩

/-- Witness for C10 at concrete names: the config path of "lab1" is not
    the key path of "lab1", and injectivity applied at equal paths. -/
theorem c10_paths_never_alias_witness :
    getCfgPath "lab1" ≠ getKeyPath "lab1" ∧ "lab1" = "lab1" :=
  ⟨(c10_paths_never_alias "lab1" "lab1").2.2,
   (c10_paths_never_alias "lab1" "lab1").1 rfl⟩

end HilVpn
